import Mathlib

/-!
Shallow embedding of `src/plugins/tflite/tflite_lib/tflite_sys/src/wrapper.c`
(the full-validation variant; `c_probe_device` and `c_poke_devices` are
byte-identical in the `object_detection_tflite` variant).

The wrapper is glue around two external native libraries (the TfLite C API
and libusb / the edgetpu driver).  Those libraries are mocked: every native
call's outcome is a field of an environment record, and the wrapper
functions are translated line by line from the C source over that mock.
Resource acquisition and release are tracked explicitly so that the
leak/ownership claims are statable.
-/

/-- Mocked libusb device, as seen by `c_probe_device`: its bus number
(`libusb_get_bus_number`), the result of `libusb_get_port_numbers`
(`none` models a negative return, `some ps` models success filling the
first `ps.length` slots of the 7-byte buffer), and the result of
`libusb_open` (`0` is success). -/
structure UsbDevice where
  busNumber : Nat
  portRead : Option (List Nat)
  openRet : Int
deriving DecidableEq, Repr

/-- Mocked libusb world: the return value of `libusb_init` (negative means
failure) and the device list returned by `libusb_get_device_list`
(`none` models a negative return). -/
structure UsbWorld where
  initRet : Int
  deviceList : Option (List UsbDevice)
deriving DecidableEq, Repr

/-- Return value of `c_probe_device` together with the resource events of
that call: whether a context was created (`libusb_init` succeeded),
whether `libusb_exit` was called, whether a device list was acquired,
and whether `libusb_free_device_list` was called. -/
structure ProbeResult where
  code : Int
  contextCreated : Bool
  contextReleased : Bool
  listAcquired : Bool
  listReleased : Bool
deriving DecidableEq, Repr

/-- Outcome of the scan loop of `c_probe_device` (lines 189-224 of the
source): the first device on the target bus whose port read fails ends the
loop with an error; the first device whose bus and full port path match the
target ends it with `found` or `openFailed` depending on `libusb_open`;
otherwise the loop falls through to `notFound`. -/
inductive ScanOutcome where
  | found : ScanOutcome
  | openFailed : ScanOutcome
  | portReadFailed : ScanOutcome
  | notFound : ScanOutcome
deriving DecidableEq, Repr

/-- The scan loop of `c_probe_device`, translated from the C source:
skip on bus mismatch, return on port-read failure, skip on path-length
mismatch, compare the path bytes (`memcmp`), and on a match try to open. -/
def scanDevices (busTarget : Int) (portsTarget : List Nat) :
    List UsbDevice → ScanOutcome
  | [] => ScanOutcome.notFound
  | dev :: rest =>
    if (dev.busNumber : Int) ≠ busTarget then
      scanDevices busTarget portsTarget rest
    else
      match dev.portRead with
      | none => ScanOutcome.portReadFailed
      | some ps =>
        if ps.length ≠ portsTarget.length then
          scanDevices busTarget portsTarget rest
        else if ps = portsTarget then
          (if dev.openRet = 0 then ScanOutcome.found else ScanOutcome.openFailed)
        else
          scanDevices busTarget portsTarget rest

/-- `c_probe_device` (wrapper.c lines 164-229), over the mocked libusb
world, with its resource events.  Note the open-failure branch
(lines 213-217): the device list is freed but `libusb_exit` is NOT called
on that path in the source. -/
def c_probe_device (w : UsbWorld) (busTarget : Int) (portsTarget : List Nat) :
    ProbeResult :=
  if w.initRet < 0 then
    ⟨20000, false, false, false, false⟩
  else
    match w.deviceList with
    | none => ⟨20001, true, true, false, false⟩
    | some devs =>
      match scanDevices busTarget portsTarget devs with
      | ScanOutcome.portReadFailed => ⟨20002, true, true, true, true⟩
      | ScanOutcome.openFailed => ⟨20003, true, false, true, true⟩
      | ScanOutcome.found => ⟨0, true, true, true, true⟩
      | ScanOutcome.notFound => ⟨20004, true, true, true, true⟩

/-- Predicate written from the claim's words (not from the source), used to
compare against the code: the device has exactly the target bus number,
a readable port path equal to the target path, and opens successfully. -/
def matchingOpenableDevice (busTarget : Int) (portsTarget : List Nat)
    (dev : UsbDevice) : Bool :=
  ((dev.busNumber : Int) == busTarget) &&
    (match dev.portRead with
     | some ps => ps == portsTarget
     | none => false) &&
    (dev.openRet == 0)

/-- A device at which the scan loop of `c_probe_device` stops: bus match
together with either a port-read failure or a full port-path match. -/
def stopsScan (busTarget : Int) (portsTarget : List Nat) (dev : UsbDevice) :
    Bool :=
  ((dev.busNumber : Int) == busTarget) &&
    (match dev.portRead with
     | none => true
     | some ps => ps == portsTarget)

/-- Mocked edgetpu device as seen by `c_poke_devices`: whether
`edgetpu_create_delegate` returns non-null for it. -/
structure EdgetpuDevice where
  delegateCreateOk : Bool
deriving DecidableEq, Repr

/-- Per-device events of `c_poke_devices`: whether a delegate was created
(non-null) and whether `edgetpu_free_delegate` was called for this device. -/
structure PokeDeviceEffect where
  delegateCreated : Bool
  freeCalled : Bool
deriving DecidableEq, Repr

/-- `c_poke_devices` (wrapper.c lines 231-246) over a mocked device list:
when the delegate is non-null the loop `continue`s (no free call); only
when creation returned null does it call `edgetpu_free_delegate`
(on the null pointer). -/
def c_poke_devices (devs : List EdgetpuDevice) : List PokeDeviceEffect :=
  devs.map fun dev =>
    if dev.delegateCreateOk then ⟨true, false⟩ else ⟨false, true⟩

/-- Mocked TfLite tensor: its element type (`TfLiteTensorType`, an enum
value; `3` is the 8-bit-unsigned kind, `1` the 32-bit-float kind), its byte
size (`TfLiteTensorByteSize`) and its data pointer (`TfLiteTensorData`,
abstracted to a number). -/
structure TfLiteTensor where
  tensorType : Int
  byteSize : Nat
  dataPtr : Nat
deriving DecidableEq, Repr

/-- The `CDetector` handle of wrapper.c: a (possibly null) interpreter,
the cached (possibly null) input-tensor reference, and a (possibly null)
delegate.  Presence stands for a non-null pointer. -/
structure CDetector where
  interpreter : Bool
  input_tensor : Option TfLiteTensor
  delegate : Bool
deriving DecidableEq, Repr

/-- `c_detector_allocate` (wrapper.c lines 25-31): a fresh handle with all
three pointers null. -/
def c_detector_allocate : CDetector :=
  ⟨false, none, false⟩

/-- Mocked outcomes of the native calls made by `c_detector_load_model`:
whether `TfLiteModelCreateFromFileWithErrorReporter` returns non-null,
whether `edgetpu_create_delegate` returns non-null, whether
`TfLiteInterpreterCreate` returns non-null, the status returned by
`TfLiteInterpreterAllocateTensors`, the input tensor count, the input
tensor at index 0, and the output tensor count. -/
structure LoadEnv where
  modelLoadOk : Bool
  delegateCreateOk : Bool
  interpreterCreateOk : Bool
  allocateTensorsRet : Int
  inputTensorCount : Int
  inputTensor0 : TfLiteTensor
  outputTensorCount : Int
deriving DecidableEq, Repr

/-- Return value of `c_detector_load_model` together with the handle state
after the call, the state of the `input_tensor_size` out-parameter
(`none` means never written), and the create/destroy events of that call.
The function contains no delete call for the interpreter or the delegate;
those are only ever destroyed by `c_detector_free`. -/
structure LoadResult where
  ret : Int
  d : CDetector
  inputTensorSizeOut : Option Nat
  modelCreated : Bool
  modelDeleted : Bool
  optionsCreated : Bool
  optionsDeleted : Bool
  interpreterCreated : Bool
  delegateCreated : Bool
deriving DecidableEq, Repr

/-- `c_detector_load_model` (wrapper.c lines 33-99), translated return by
return from the C source.  Error constants: 10000 create-from-file,
10001 interpreter-create, 10002 input-tensor-count, 10003
input-tensor-type, 10004 output-tensor-count, 10005 delegate-create;
`TfLiteInterpreterAllocateTensors` failures are returned verbatim.
`deviceGiven` models `device != NULL`.  On the delegate-failure and
interpreter-failure returns the model and the options are not deleted
(lines 60 and 67 return before lines 69-70). -/
def c_detector_load_model (env : LoadEnv) (d0 : CDetector)
    (deviceGiven : Bool) : LoadResult :=
  if env.modelLoadOk = false then
    { ret := 10000, d := d0, inputTensorSizeOut := none,
      modelCreated := false, modelDeleted := false,
      optionsCreated := false, optionsDeleted := false,
      interpreterCreated := false, delegateCreated := false }
  else if deviceGiven = true ∧ env.delegateCreateOk = false then
    { ret := 10005, d := { d0 with delegate := false },
      inputTensorSizeOut := none,
      modelCreated := true, modelDeleted := false,
      optionsCreated := true, optionsDeleted := false,
      interpreterCreated := false, delegateCreated := false }
  else
    let d1 : CDetector :=
      if deviceGiven then { d0 with delegate := true } else d0
    if env.interpreterCreateOk = false then
      { ret := 10001, d := { d1 with interpreter := false },
        inputTensorSizeOut := none,
        modelCreated := true, modelDeleted := false,
        optionsCreated := true, optionsDeleted := false,
        interpreterCreated := false, delegateCreated := deviceGiven }
    else
      let d2 : CDetector := { d1 with interpreter := true }
      if env.allocateTensorsRet ≠ 0 then
        { ret := env.allocateTensorsRet, d := d2, inputTensorSizeOut := none,
          modelCreated := true, modelDeleted := true,
          optionsCreated := true, optionsDeleted := true,
          interpreterCreated := true, delegateCreated := deviceGiven }
      else if env.inputTensorCount ≠ 1 then
        { ret := 10002, d := d2, inputTensorSizeOut := none,
          modelCreated := true, modelDeleted := true,
          optionsCreated := true, optionsDeleted := true,
          interpreterCreated := true, delegateCreated := deviceGiven }
      else
        let d3 : CDetector := { d2 with input_tensor := some env.inputTensor0 }
        if env.inputTensor0.tensorType ≠ 3 then
          { ret := 10003, d := d3,
            inputTensorSizeOut := some env.inputTensor0.byteSize,
            modelCreated := true, modelDeleted := true,
            optionsCreated := true, optionsDeleted := true,
            interpreterCreated := true, delegateCreated := deviceGiven }
        else if env.outputTensorCount ≠ 4 then
          { ret := 10004, d := d3,
            inputTensorSizeOut := some env.inputTensor0.byteSize,
            modelCreated := true, modelDeleted := true,
            optionsCreated := true, optionsDeleted := true,
            interpreterCreated := true, delegateCreated := deviceGiven }
        else
          { ret := 0, d := d3,
            inputTensorSizeOut := some env.inputTensor0.byteSize,
            modelCreated := true, modelDeleted := true,
            optionsCreated := true, optionsDeleted := true,
            interpreterCreated := true, delegateCreated := deviceGiven }

/-- Destroy events of `c_detector_free` (wrapper.c lines 140-151): the
interpreter is deleted when non-null, the cached input tensor is freed
when non-null (`TfLiteTensorFree`), the delegate is freed when non-null. -/
structure FreeEffects where
  interpreterDeleted : Bool
  inputTensorFreed : Bool
  delegateFreed : Bool
deriving DecidableEq, Repr

/-- `c_detector_free` (wrapper.c lines 140-151) as its destroy events. -/
def c_detector_free (d : CDetector) : FreeEffects :=
  ⟨d.interpreter, d.input_tensor.isSome, d.delegate⟩

/-- Number of times the model created by a `c_detector_load_model` run is
destroyed by this component across that run and the eventual
`c_detector_free`: only line 69 of the source deletes the model, so the
count is the run's `modelDeleted` event. -/
def modelDestroyCount (r : LoadResult) : Nat :=
  if r.modelDeleted then 1 else 0

/-- Number of times the interpreter options are destroyed by this
component: only line 70 of the source deletes them. -/
def optionsDestroyCount (r : LoadResult) : Nat :=
  if r.optionsDeleted then 1 else 0

/-- Number of times the interpreter is destroyed across the load run and
the eventual `c_detector_free`: `c_detector_load_model` never deletes it,
`c_detector_free` deletes it exactly when the handle holds one. -/
def interpreterDestroyCount (r : LoadResult) : Nat :=
  if (c_detector_free r.d).interpreterDeleted then 1 else 0

/-- Number of times the delegate is destroyed across the load run and the
eventual `c_detector_free`: `c_detector_load_model` never frees it,
`c_detector_free` frees it exactly when the handle holds one. -/
def delegateDestroyCount (r : LoadResult) : Nat :=
  if (c_detector_free r.d).delegateFreed then 1 else 0

/-- Modelled from the spec and the header contract of the external native
runtime: `TfLiteTensorCopyFromBuffer` requires the buffer length to equal
the tensor's byte size and fails (status 1, the runtime's generic error)
otherwise; the spec calls this failure `BufferSizeMismatchError`. -/
def tfLiteTensorCopyFromBuffer (t : TfLiteTensor) (bufSize : Nat) : Int :=
  if bufSize = t.byteSize then 0 else 1

/-- Mocked outcomes of the native calls made by `c_detector_detect`:
the status of `TfLiteInterpreterInvoke` and the four output tensors
returned by `TfLiteInterpreterGetOutputTensor` at indices 0-3. -/
structure DetectEnv where
  invokeRet : Int
  out0 : TfLiteTensor
  out1 : TfLiteTensor
  out2 : TfLiteTensor
  out3 : TfLiteTensor
deriving DecidableEq, Repr

/-- The eight out-parameters written by a successful `c_detector_detect`:
data pointer and byte size of each of the four output tensors. -/
structure OutputViews where
  t0_data : Nat
  t1_data : Nat
  t2_data : Nat
  t3_data : Nat
  t0_size : Nat
  t1_size : Nat
  t2_size : Nat
  t3_size : Nat
deriving DecidableEq, Repr

/-- Exit paths of `c_detector_detect`.  `nullTensorCopy` records that the
code reached the native `TfLiteTensorCopyFromBuffer` call with the null
cached input tensor (the C source has no null guard, so on an unloaded
handle the null pointer is handed to the native runtime, which
dereferences it: undefined behavior, not a defined return value);
`nullInterpreterInvoke` likewise for `TfLiteInterpreterInvoke` with a null
interpreter. -/
inductive DetectResult where
  | nullTensorCopy : DetectResult
  | nullInterpreterInvoke : DetectResult
  | copyError (code : Int) : DetectResult
  | invokeError (code : Int) : DetectResult
  | outputTypeError (code : Int) : DetectResult
  | ok (views : OutputViews) : DetectResult
deriving DecidableEq, Repr

/-- Whether the `TfLiteInterpreterInvoke` step of `c_detector_detect` was
reached on this exit path. -/
def DetectResult.invokeReached : DetectResult → Bool
  | DetectResult.nullTensorCopy => false
  | DetectResult.copyError _ => false
  | _ => true

/-- The output views written by `c_detector_detect` on this exit path
(`none`: the out-parameters were never written). -/
def DetectResult.views : DetectResult → Option OutputViews
  | DetectResult.ok v => some v
  | _ => none

/-- `c_detector_detect` (wrapper.c lines 101-138), translated from the C
source: copy the buffer into the cached input tensor (returning the
runtime status on failure), invoke the interpreter (returning the status
on failure), fetch output tensors 0-3, return 20000
(`ERROR_OUTPUT_TENSOR_TYPE`) when ALL four output tensor types differ
from 1 (the 32-bit-float kind), else write all eight out-parameters and
return 0.  There is no null check anywhere in the function. -/
def c_detector_detect (env : DetectEnv) (d : CDetector) (bufSize : Nat) :
    DetectResult :=
  match d.input_tensor with
  | none => DetectResult.nullTensorCopy
  | some t =>
    if tfLiteTensorCopyFromBuffer t bufSize ≠ 0 then
      DetectResult.copyError (tfLiteTensorCopyFromBuffer t bufSize)
    else if d.interpreter = false then
      DetectResult.nullInterpreterInvoke
    else if env.invokeRet ≠ 0 then
      DetectResult.invokeError env.invokeRet
    else if env.out0.tensorType ≠ 1 ∧ env.out1.tensorType ≠ 1 ∧
        env.out2.tensorType ≠ 1 ∧ env.out3.tensorType ≠ 1 then
      DetectResult.outputTypeError 20000
    else
      DetectResult.ok
        ⟨env.out0.dataPtr, env.out1.dataPtr, env.out2.dataPtr,
          env.out3.dataPtr, env.out0.byteSize, env.out1.byteSize,
          env.out2.byteSize, env.out3.byteSize⟩

/-- The error constants defined by `c_detector_load_model`
(wrapper.c lines 36-41). -/
def loadModelErrorCodes : List Int :=
  [10000, 10001, 10002, 10003, 10004, 10005]

/-- The error constant defined by `c_detector_detect`
(wrapper.c line 105). -/
def detectErrorCodes : List Int :=
  [20000]

/-- The error constants defined by `c_probe_device`
(wrapper.c lines 167-171). -/
def probeErrorCodes : List Int :=
  [20000, 20001, 20002, 20003, 20004]

theorem scanDevices_eq_find (busTarget : Int) (portsTarget : List Nat)
    (devs : List UsbDevice) :
    scanDevices busTarget portsTarget devs =
      (match devs.find? (stopsScan busTarget portsTarget) with
       | none => ScanOutcome.notFound
       | some dev =>
         match dev.portRead with
         | none => ScanOutcome.portReadFailed
         | some _ =>
           if dev.openRet = 0 then ScanOutcome.found
           else ScanOutcome.openFailed) := by
  induction devs with
  | nil => rfl
  | cons dev rest ih =>
    by_cases hb : (dev.busNumber : Int) = busTarget
    · cases hpr : dev.portRead with
      | none =>
        simp [scanDevices, List.find?, stopsScan, hb, hpr]
      | some ps =>
        by_cases hp : ps = portsTarget
        · subst hp
          simp [scanDevices, List.find?, stopsScan, hb, hpr]
        · have hpb : (ps == portsTarget) = false := beq_eq_false_iff_ne.mpr hp
          simp [scanDevices, List.find?, stopsScan, hb, hpr, hp, hpb, ih]
    · have hbb : ((dev.busNumber : Int) == busTarget) = false :=
        beq_eq_false_iff_ne.mpr hb
      simp [scanDevices, List.find?, stopsScan, hb, hbb, ih]

/-- Claim C1, counterexample: `c_probe_device` success is NOT equivalent to
the existence of an enumerated device with the target bus, the target port
path and a successful open.  In the mocked enumeration below, the second
device has bus 1, port path `[2]` and opens successfully, yet the probe
returns 20002 (`ERROR_USB_GET_PORT_NUMBERS`), because the scan aborts at
the first same-bus device, whose port read fails. -/
theorem probe_not_iff_existential_cex :
    (([⟨1, none, 0⟩, ⟨1, some [2], 0⟩] : List UsbDevice).any
        (matchingOpenableDevice 1 [2])) = true ∧
    (c_probe_device ⟨0, some [⟨1, none, 0⟩, ⟨1, some [2], 0⟩]⟩ 1 [2]).code
      = 20002 := by
  decide

/-- Claim C1, amended: after successful init and enumeration,
`c_probe_device` returns 0 exactly when the FIRST device (in enumeration
order) at which the scan stops - a same-bus device with a failing port
read, or a device matching both bus and full port path - has a readable
path and opens successfully, and it returns 20004
(`ERROR_USB_NOT_FOUND`) exactly when no device stops the scan; a
port-read failure or an open failure at that first stopping device ends
the probe with the corresponding error even when a later device matches
and is openable. -/
theorem probe_first_stop_characterization (w : UsbWorld) (busTarget : Int)
    (portsTarget : List Nat) (devs : List UsbDevice)
    (hinit : 0 ≤ w.initRet) (hlist : w.deviceList = some devs) :
    ((c_probe_device w busTarget portsTarget).code = 0 ↔
      ∃ dev ps, devs.find? (stopsScan busTarget portsTarget) = some dev ∧
        dev.portRead = some ps ∧ dev.openRet = 0) ∧
    ((c_probe_device w busTarget portsTarget).code = 20004 ↔
      devs.find? (stopsScan busTarget portsTarget) = none) := by
  have hn : ¬ w.initRet < 0 := not_lt.mpr hinit
  rcases hf : devs.find? (stopsScan busTarget portsTarget) with _ | dev
  · simp [c_probe_device, hn, hlist, scanDevices_eq_find, hf]
  · cases hpr : dev.portRead with
    | none =>
      simp [c_probe_device, hn, hlist, scanDevices_eq_find, hf, hpr]
    | some ps =>
      by_cases ho : dev.openRet = 0
      · simp [c_probe_device, hn, hlist, scanDevices_eq_find, hf, hpr, ho]
      · simp [c_probe_device, hn, hlist, scanDevices_eq_find, hf, hpr, ho]

/-- Claim C1, witness for the amended theorem: a single enumerated device
with the target bus and path that opens successfully makes the probe
return 0. -/
theorem probe_first_stop_characterization_witness :
    (c_probe_device ⟨0, some [⟨1, some [2], 0⟩]⟩ 1 [2]).code = 0 :=
  (probe_first_stop_characterization ⟨0, some [⟨1, some [2], 0⟩]⟩ 1 [2]
      [⟨1, some [2], 0⟩] (by decide) rfl).1.mpr
    ⟨⟨1, some [2], 0⟩, [2], by decide, rfl, rfl⟩

/-- Claim C2: on the success, port-read-failure and not-found exits both
the device list and the context are released, but on the open-failure
exit (wrapper.c lines 213-217) the source frees the device list and
returns WITHOUT calling `libusb_exit`, leaking the context - the
`contextReleased` field is `false` there, contradicting the claim. -/
theorem probe_open_failure_leaks_context :
    c_probe_device ⟨0, some [⟨1, some [2], 0⟩]⟩ 1 [2]
      = ⟨0, true, true, true, true⟩ ∧
    c_probe_device ⟨0, some [⟨1, none, 0⟩]⟩ 1 [2]
      = ⟨20002, true, true, true, true⟩ ∧
    c_probe_device ⟨0, some []⟩ 1 [2]
      = ⟨20004, true, true, true, true⟩ ∧
    c_probe_device ⟨0, some [⟨1, some [2], -1⟩]⟩ 1 [2]
      = ⟨20003, true, false, true, true⟩ := by
  decide

/-- Claim C7: the free branch of `c_poke_devices` is inverted in the
source - when delegate creation succeeds the loop `continue`s without
freeing (effect `⟨true, false⟩`: created, never freed), and when creation
fails it calls `edgetpu_free_delegate` on the null delegate (effect
`⟨false, true⟩`), the opposite of the claimed behavior. -/
theorem poke_devices_inverted_free :
    c_poke_devices [⟨true⟩, ⟨false⟩] = [⟨true, false⟩, ⟨false, true⟩] := by
  decide

/-- Claim C8, counterexample: `c_detector_detect` returns 20000
(`ERROR_OUTPUT_TENSOR_TYPE`) when every output tensor type differs from
the float kind, and `c_probe_device` returns 20000 (`ERROR_USB_INIT`)
when `libusb_init` fails - the same numeric value for two different
failure conditions of two different operations, so the three error-code
sets are not pairwise disjoint. -/
theorem error_code_overlap_cex :
    c_detector_detect ⟨0, ⟨0, 1, 0⟩, ⟨0, 1, 0⟩, ⟨0, 1, 0⟩, ⟨0, 1, 0⟩⟩
        ⟨true, some ⟨3, 8, 0⟩, false⟩ 8 = DetectResult.outputTypeError 20000 ∧
    (c_probe_device ⟨-1, none⟩ 0 []).code = 20000 := by
  decide

/-- Claim C8, amended: the `c_detector_load_model` error constants
(10000-10005) are disjoint from both the `c_detector_detect` and the
`c_probe_device` error constants, but the latter two sets overlap:
detect's output-tensor-type error and probe's USB-init error are both
20000. -/
theorem error_code_partition_amended :
    (loadModelErrorCodes.all fun c => !(detectErrorCodes.contains c)) = true ∧
    (loadModelErrorCodes.all fun c => !(probeErrorCodes.contains c)) = true ∧
    detectErrorCodes.contains 20000 = true ∧
    probeErrorCodes.contains 20000 = true := by
  decide

/-- Claim C3: on a fresh handle (no successful load: interpreter and
cached input tensor both null) `c_detector_detect` does NOT fail through
a null-interpreter guard - no such guard exists in the source - but
instead hands the null cached input tensor straight to the native
`TfLiteTensorCopyFromBuffer` call, which dereferences it: undefined
memory access, not a deterministic error return. -/
theorem detect_unloaded_reaches_native_copy_with_null_tensor
    (env : DetectEnv) (bufSize : Nat) :
    c_detector_detect env c_detector_allocate bufSize
      = DetectResult.nullTensorCopy :=
  rfl

/-- Claim C4: on a handle holding a cached input tensor, a buffer whose
length differs from the tensor's byte size makes `c_detector_detect`
return the copy failure status (the runtime's size-mismatch error, 1)
with the invoke step never reached and no output view written. -/
theorem detect_size_mismatch_no_invoke (env : DetectEnv) (d : CDetector)
    (t : TfLiteTensor) (bufSize : Nat) (ht : d.input_tensor = some t)
    (hsz : bufSize ≠ t.byteSize) :
    c_detector_detect env d bufSize = DetectResult.copyError 1 ∧
    (c_detector_detect env d bufSize).invokeReached = false ∧
    (c_detector_detect env d bufSize).views = none := by
  have hcopy : tfLiteTensorCopyFromBuffer t bufSize = 1 := by
    simp [tfLiteTensorCopyFromBuffer, hsz]
  simp [c_detector_detect, ht, hcopy, DetectResult.invokeReached,
    DetectResult.views]

/-- Claim C4, witness: a 5-byte buffer against a 4-byte input tensor. -/
theorem detect_size_mismatch_no_invoke_witness :
    c_detector_detect ⟨0, ⟨1, 8, 0⟩, ⟨1, 8, 0⟩, ⟨1, 8, 0⟩, ⟨1, 8, 0⟩⟩
        ⟨true, some ⟨3, 4, 0⟩, false⟩ 5 = DetectResult.copyError 1 :=
  (detect_size_mismatch_no_invoke
      ⟨0, ⟨1, 8, 0⟩, ⟨1, 8, 0⟩, ⟨1, 8, 0⟩, ⟨1, 8, 0⟩⟩
      ⟨true, some ⟨3, 4, 0⟩, false⟩ ⟨3, 4, 0⟩ 5 rfl (by decide)).1

/-- Claim C6: on a loaded handle, when the input copy and the invocation
succeed, `c_detector_detect` returns 20000 (`ERROR_OUTPUT_TENSOR_TYPE`)
exactly when NONE of the four output tensors has element type 1 (the
32-bit-float kind), and otherwise writes the data pointer and byte size
of all four output tensors and returns 0. -/
theorem detect_output_type_check (env : DetectEnv) (d : CDetector)
    (t : TfLiteTensor) (bufSize : Nat)
    (hi : d.interpreter = true) (ht : d.input_tensor = some t)
    (hsz : bufSize = t.byteSize) (hinv : env.invokeRet = 0) :
    (c_detector_detect env d bufSize = DetectResult.outputTypeError 20000 ↔
      (env.out0.tensorType ≠ 1 ∧ env.out1.tensorType ≠ 1 ∧
        env.out2.tensorType ≠ 1 ∧ env.out3.tensorType ≠ 1)) ∧
    (¬(env.out0.tensorType ≠ 1 ∧ env.out1.tensorType ≠ 1 ∧
        env.out2.tensorType ≠ 1 ∧ env.out3.tensorType ≠ 1) →
      c_detector_detect env d bufSize = DetectResult.ok
        ⟨env.out0.dataPtr, env.out1.dataPtr, env.out2.dataPtr,
          env.out3.dataPtr, env.out0.byteSize, env.out1.byteSize,
          env.out2.byteSize, env.out3.byteSize⟩) := by
  have hcopy : tfLiteTensorCopyFromBuffer t bufSize = 0 := by
    simp [tfLiteTensorCopyFromBuffer, hsz]
  by_cases hall : (env.out0.tensorType ≠ 1 ∧ env.out1.tensorType ≠ 1 ∧
      env.out2.tensorType ≠ 1 ∧ env.out3.tensorType ≠ 1)
  · simp [c_detector_detect, ht, hcopy, hi, hinv, hall]
  · simp [c_detector_detect, ht, hcopy, hi, hinv, hall]

/-- Claim C6, witness: output tensor 0 has the float kind, so detect
returns the four views and status 0. -/
theorem detect_output_type_check_witness :
    c_detector_detect ⟨0, ⟨1, 8, 100⟩, ⟨0, 8, 200⟩, ⟨0, 8, 300⟩, ⟨0, 8, 400⟩⟩
        ⟨true, some ⟨3, 4, 0⟩, false⟩ 4
      = DetectResult.ok ⟨100, 200, 300, 400, 8, 8, 8, 8⟩ :=
  (detect_output_type_check
      ⟨0, ⟨1, 8, 100⟩, ⟨0, 8, 200⟩, ⟨0, 8, 300⟩, ⟨0, 8, 400⟩⟩
      ⟨true, some ⟨3, 4, 0⟩, false⟩ ⟨3, 4, 0⟩ 4 rfl rfl rfl rfl).2
    (by decide)

/-- Claim C5: when the model load, the delegate creation (if requested),
the interpreter creation and the tensor allocation all succeed,
`c_detector_load_model` returns 10002 exactly when the input tensor count
differs from 1, 10003 exactly when the count is 1 and the sole input
tensor's type is not 3 (the 8-bit-unsigned kind), 10004 exactly when the
first two checks pass and the output tensor count differs from 4, and 0
exactly when all three checks pass. -/
theorem load_model_validation_codes (env : LoadEnv) (deviceGiven : Bool)
    (hm : env.modelLoadOk = true)
    (hd : deviceGiven = true → env.delegateCreateOk = true)
    (hi : env.interpreterCreateOk = true)
    (ha : env.allocateTensorsRet = 0) :
    ((c_detector_load_model env c_detector_allocate deviceGiven).ret = 10002
      ↔ env.inputTensorCount ≠ 1) ∧
    ((c_detector_load_model env c_detector_allocate deviceGiven).ret = 10003
      ↔ env.inputTensorCount = 1 ∧ env.inputTensor0.tensorType ≠ 3) ∧
    ((c_detector_load_model env c_detector_allocate deviceGiven).ret = 10004
      ↔ env.inputTensorCount = 1 ∧ env.inputTensor0.tensorType = 3 ∧
          env.outputTensorCount ≠ 4) ∧
    ((c_detector_load_model env c_detector_allocate deviceGiven).ret = 0
      ↔ env.inputTensorCount = 1 ∧ env.inputTensor0.tensorType = 3 ∧
          env.outputTensorCount = 4) := by
  rcases env with ⟨ml, dc, ic, ar, itc, it0, otc⟩
  simp only at hm hi ha
  subst hm hi ha
  have hdev : ¬(deviceGiven = true ∧ dc = false) := by
    rintro ⟨h1, h2⟩
    have h3 : dc = true := hd h1
    rw [h3] at h2
    exact Bool.noConfusion h2
  by_cases h1 : itc = 1 <;> by_cases h2 : it0.tensorType = 3 <;>
    by_cases h3 : otc = 4 <;>
    simp [c_detector_load_model, hdev, h1, h2, h3]

/-- Claim C5, witness: a model with 1 input tensor of type 3 and 4 output
tensors loads with status 0 (and reports the 270000-byte input size
through the out-parameter, per the spec scenario). -/
theorem load_model_validation_codes_witness :
    (c_detector_load_model ⟨true, true, true, 0, 1, ⟨3, 270000, 0⟩, 4⟩
        c_detector_allocate false).ret = 0 :=
  ((load_model_validation_codes ⟨true, true, true, 0, 1, ⟨3, 270000, 0⟩, 4⟩
      false rfl (fun _ => rfl) rfl rfl).2.2.2).mpr ⟨rfl, rfl, rfl⟩

/-- Claim C10: under the same staging hypotheses as C5, whenever
`c_detector_load_model` fails with 10003 or 10004, line 83 has already
cached the input tensor reference in the handle and line 85 has already
written its byte size to the `input_tensor_size` out-parameter, because
both happen before the input-type and output-count checks. -/
theorem load_model_out_param_written_before_type_checks (env : LoadEnv)
    (deviceGiven : Bool)
    (hm : env.modelLoadOk = true)
    (hd : deviceGiven = true → env.delegateCreateOk = true)
    (hi : env.interpreterCreateOk = true)
    (ha : env.allocateTensorsRet = 0)
    (hret : (c_detector_load_model env c_detector_allocate deviceGiven).ret
        = 10003 ∨
      (c_detector_load_model env c_detector_allocate deviceGiven).ret
        = 10004) :
    (c_detector_load_model env c_detector_allocate
        deviceGiven).inputTensorSizeOut = some env.inputTensor0.byteSize ∧
    (c_detector_load_model env c_detector_allocate
        deviceGiven).d.input_tensor = some env.inputTensor0 := by
  rcases env with ⟨ml, dc, ic, ar, itc, it0, otc⟩
  simp only at hm hi ha
  subst hm hi ha
  have hdev : ¬(deviceGiven = true ∧ dc = false) := by
    rintro ⟨h1, h2⟩
    have h3 : dc = true := hd h1
    rw [h3] at h2
    exact Bool.noConfusion h2
  by_cases h1 : itc = 1 <;> by_cases h2 : it0.tensorType = 3 <;>
    by_cases h3 : otc = 4 <;>
    simp [c_detector_load_model, hdev, h1, h2, h3] at hret ⊢

/-- Claim C10, witness: input type 9 fails the type check with 10003, yet
the out-parameter and the cached tensor are already set. -/
theorem load_model_out_param_written_before_type_checks_witness :
    (c_detector_load_model ⟨true, true, true, 0, 1, ⟨9, 270000, 0⟩, 4⟩
        c_detector_allocate false).inputTensorSizeOut = some 270000 ∧
    (c_detector_load_model ⟨true, true, true, 0, 1, ⟨9, 270000, 0⟩, 4⟩
        c_detector_allocate false).d.input_tensor = some ⟨9, 270000, 0⟩ :=
  load_model_out_param_written_before_type_checks
    ⟨true, true, true, 0, 1, ⟨9, 270000, 0⟩, 4⟩ false rfl (fun _ => rfl)
    rfl rfl (Or.inl (by decide))

/-- Claim C9, counterexample: when the model loads but the interpreter
creation fails (return 10001, wrapper.c line 67), the function returns
before the `TfLiteModelDelete` and `TfLiteInterpreterOptionsDelete` calls
of lines 69-70, and `c_detector_free` never touches the model or the
options, so a resource created during that load is destroyed zero times,
not exactly once. -/
theorem load_model_leak_on_interpreter_failure_cex :
    (c_detector_load_model ⟨true, true, false, 0, 1, ⟨3, 4, 0⟩, 4⟩
        c_detector_allocate false).ret = 10001 ∧
    (c_detector_load_model ⟨true, true, false, 0, 1, ⟨3, 4, 0⟩, 4⟩
        c_detector_allocate false).modelCreated = true ∧
    modelDestroyCount (c_detector_load_model ⟨true, true, false, 0, 1,
        ⟨3, 4, 0⟩, 4⟩ c_detector_allocate false) = 0 ∧
    optionsDestroyCount (c_detector_load_model ⟨true, true, false, 0, 1,
        ⟨3, 4, 0⟩, 4⟩ c_detector_allocate false) = 0 := by
  decide

/-- Claim C9, amended: across a `c_detector_load_model` run on a fresh
handle and the eventual `c_detector_free`, the interpreter and the
delegate are each destroyed exactly once when created and never
otherwise, while the model and the interpreter options are destroyed
exactly once iff the interpreter creation succeeded - on the
delegate-creation-failure and interpreter-creation-failure paths they
are created but never destroyed. -/
theorem load_free_destroy_counts (env : LoadEnv) (deviceGiven : Bool) :
    interpreterDestroyCount
        (c_detector_load_model env c_detector_allocate deviceGiven)
      = (if (c_detector_load_model env c_detector_allocate
            deviceGiven).interpreterCreated then 1 else 0) ∧
    delegateDestroyCount
        (c_detector_load_model env c_detector_allocate deviceGiven)
      = (if (c_detector_load_model env c_detector_allocate
            deviceGiven).delegateCreated then 1 else 0) ∧
    modelDestroyCount
        (c_detector_load_model env c_detector_allocate deviceGiven)
      = (if (c_detector_load_model env c_detector_allocate
            deviceGiven).interpreterCreated then 1 else 0) ∧
    optionsDestroyCount
        (c_detector_load_model env c_detector_allocate deviceGiven)
      = (if (c_detector_load_model env c_detector_allocate
            deviceGiven).interpreterCreated then 1 else 0) ∧
    (c_detector_load_model env c_detector_allocate deviceGiven).modelCreated
      = env.modelLoadOk := by
  rcases env with ⟨ml, dc, ic, ar, itc, it0, otc⟩
  cases ml <;> cases dc <;> cases ic <;> cases deviceGiven <;>
    by_cases har : ar = 0 <;> by_cases h1 : itc = 1 <;>
    by_cases h2 : it0.tensorType = 3 <;> by_cases h3 : otc = 4 <;>
    simp [c_detector_load_model, c_detector_allocate, c_detector_free,
      modelDestroyCount, optionsDestroyCount, interpreterDestroyCount,
      delegateDestroyCount, har, h1, h2, h3]
